import Mathlib

/-!
Verification of the battery extraction-and-derivation pipeline of
`src/mac_battery_forensics.py` (function `get_battery_data_forensic`).

The Python function is embedded shallowly:
* the plist document produced by `plistlib.loads` becomes the inductive
  `RawValue` / `RawDoc` types (a dict is an association list with unique keys);
* the key-by-key extraction block (lines 207-251) becomes `parseBattery`,
  producing the typed `BatteryRecord`;
* the calculation block (lines 253-282) becomes the pure functions
  `voltage_v`, `power_watts`, `wear_level`, `real_health_pct`,
  `real_percentage`, `temperature_celsius`, `charging_status`;
* the `battery_data` dictionary built at lines 285-322 becomes
  `mkBatteryData` (the creation timestamp, taken from an external clock,
  carries no numeric content and is left out of the model);
* Python floats are modelled by exact rationals, and the built-in `round`
  (round-half-to-even on the value) by `pyRound` below.
-/

namespace BatteryMonitor

/-- A value of the dynamically typed plist document: integers, booleans,
strings, nested lists and nested dictionaries. -/
inductive RawValue where
  | int (n : ℤ)
  | bool (b : Bool)
  | str (s : String)
  | list (elems : List RawValue)
  | dict (entries : List (String × RawValue))

/-- A plist dictionary: an association list from string keys to values
(keys are unique in a plist dict; lookup takes the first match). -/
abbrev RawDoc := List (String × RawValue)

/-- Dictionary lookup, the model of Python `battery.get(key)` returning
`None` when the key is absent. -/
def dget : RawDoc → String → Option RawValue
  | [], _ => none
  | (k2, v) :: rest, k => if k2 = k then some v else dget rest k

/-- Model of `battery.get(key, default)` for an integer-typed key: the stored
integer when the key is present (the registry schema types each key, so a
present key carries an integer), the default otherwise. -/
def getIntD (d : RawDoc) (k : String) (dflt : ℤ) : ℤ :=
  match dget d k with
  | some (RawValue.int n) => n
  | _ => dflt

/-- Model of `battery.get(key, default)` for a boolean-typed key. -/
def getBoolD (d : RawDoc) (k : String) (dflt : Bool) : Bool :=
  match dget d k with
  | some (RawValue.bool b) => b
  | _ => dflt

/-- Model of `battery.get(key, default)` for a string-typed key. -/
def getStrD (d : RawDoc) (k : String) (dflt : String) : String :=
  match dget d k with
  | some (RawValue.str s) => s
  | _ => dflt

/-- First element of the adapter-details list that is itself a dict: the model
of the `for adapter in adapter_details: if isinstance(adapter, dict): ...
break` loop at lines 248-251, which skips non-dict entries. -/
def firstDict : List RawValue → Option RawDoc
  | [] => none
  | RawValue.dict d :: _ => some d
  | _ :: rest => firstDict rest

/-- Adapter wattage extraction, lines 245-251: take `AppleRawAdapterDetails`
(defaulting to the empty list), and when it is a non-empty list, the `Watts`
entry of its first dict element; otherwise 0.  An empty list is falsy in
Python, and `firstDict [] = none`, so the empty list lands in the 0 branch
here exactly as it does at the `if adapter_details` guard. -/
def adapter_watts_scan (battery : RawDoc) : ℤ :=
  match dget battery "AppleRawAdapterDetails" with
  | some (RawValue.list l) =>
    match firstDict l with
    | some adapter => getIntD adapter "Watts" 0
    | none => 0
  | _ => 0

/-- The typed battery record: the raw keys extracted at lines 207-251, with
the defaults written in the source. -/
structure BatteryRecord where
  serial : String
  device_name : String
  manufacturer : String
  apple_raw_max_capacity : ℤ
  design_capacity : ℤ
  nominal_charge_capacity : ℤ
  current_capacity_pct : ℤ
  apple_raw_current_capacity : ℤ
  voltage_mv : ℤ
  amperage_ma : ℤ
  temperature_raw : ℤ
  cycle_count : ℤ
  time_remaining : ℤ
  avg_time_to_empty : ℤ
  instant_time_to_empty : ℤ
  external_connected : Bool
  is_charging : Bool
  fully_charged : Bool
  adapter_watts : ℤ

/-- The extraction block, lines 210-251: each field read key-by-key with its
explicit default. -/
def parseBattery (battery : RawDoc) : BatteryRecord :=
  { serial := getStrD battery "Serial" "Unknown"
    device_name := getStrD battery "DeviceName" "Unknown"
    manufacturer := getStrD battery "Manufacturer" "Apple Inc."
    apple_raw_max_capacity := getIntD battery "AppleRawMaxCapacity" 0
    design_capacity := getIntD battery "DesignCapacity" 0
    nominal_charge_capacity := getIntD battery "NominalChargeCapacity" 0
    current_capacity_pct := getIntD battery "CurrentCapacity" 0
    apple_raw_current_capacity := getIntD battery "AppleRawCurrentCapacity" 0
    voltage_mv := getIntD battery "Voltage" 0
    amperage_ma := getIntD battery "Amperage" 0
    temperature_raw := getIntD battery "Temperature" 0
    cycle_count := getIntD battery "CycleCount" 0
    time_remaining := getIntD battery "TimeRemaining" 0
    avg_time_to_empty := getIntD battery "AvgTimeToEmpty" 0
    instant_time_to_empty := getIntD battery "InstantTimeToEmpty" 0
    external_connected := getBoolD battery "ExternalConnected" false
    is_charging := getBoolD battery "IsCharging" false
    fully_charged := getBoolD battery "FullyCharged" false
    adapter_watts := adapter_watts_scan battery }

/-- Line 256: `voltage_mv / 1000.0 if voltage_mv else 0` (an integer is falsy
in Python exactly when it is 0; both branches give the same rational). -/
def voltage_v (r : BatteryRecord) : ℚ :=
  if r.voltage_mv ≠ 0 then (r.voltage_mv : ℚ) / 1000 else 0

/-- Line 257: `(voltage_mv * abs(amperage_ma)) / 1_000_000 if voltage_mv and
amperage_ma else 0`.  Note the absolute value is applied to the amperage
only, not to the product. -/
def power_watts (r : BatteryRecord) : ℚ :=
  if r.voltage_mv ≠ 0 ∧ r.amperage_ma ≠ 0 then
    ((r.voltage_mv : ℚ) * |(r.amperage_ma : ℚ)|) / 1000000
  else 0

/-- Lines 260-262: wear level, 0.0 unless `design_capacity > 0`. -/
def wear_level (r : BatteryRecord) : ℚ :=
  if 0 < r.design_capacity then
    100 - ((r.apple_raw_max_capacity : ℚ) / (r.design_capacity : ℚ)) * 100
  else 0

/-- Lines 265-267: real health percentage, 0.0 unless `design_capacity > 0`. -/
def real_health_pct (r : BatteryRecord) : ℚ :=
  if 0 < r.design_capacity then
    ((r.apple_raw_max_capacity : ℚ) / (r.design_capacity : ℚ)) * 100
  else 0

/-- Lines 270-272: real battery percentage, 0.0 unless
`apple_raw_max_capacity > 0`. -/
def real_percentage (r : BatteryRecord) : ℚ :=
  if 0 < r.apple_raw_max_capacity then
    ((r.apple_raw_current_capacity : ℚ) / (r.apple_raw_max_capacity : ℚ)) * 100
  else 0

/-- Line 229: `temperature_raw / 100.0 if temperature_raw else 0.0`. -/
def temperature_celsius (r : BatteryRecord) : ℚ :=
  if r.temperature_raw ≠ 0 then (r.temperature_raw : ℚ) / 100 else 0

/-- Lines 275-282: the charging-status classification chain. -/
def charging_status (r : BatteryRecord) : String :=
  if r.fully_charged then "Fully Charged"
  else if r.is_charging then "Charging"
  else if r.external_connected then "Not Charging"
  else "Discharging"

/-- Round a rational to the nearest integer, ties to the even integer: the
rounding Python `round` performs on the value it is given. -/
def roundHalfEven (q : ℚ) : ℤ :=
  if q - ⌊q⌋ < 1 / 2 then ⌊q⌋
  else if 1 / 2 < q - ⌊q⌋ then ⌊q⌋ + 1
  else if ⌊q⌋ % 2 = 0 then ⌊q⌋ else ⌊q⌋ + 1

/-- Model of Python `round(x, ndigits)` on exact rationals. -/
def pyRound (ndigits : ℕ) (x : ℚ) : ℚ :=
  (roundHalfEven (x * 10 ^ ndigits) : ℚ) / 10 ^ ndigits

/-- The `battery_data` dictionary built at lines 285-322 (without the
timestamp, which comes from the external clock). -/
structure BatteryData where
  serial : String
  device_name : String
  manufacturer : String
  design_capacity_mah : ℤ
  current_max_capacity_mah : ℤ
  nominal_charge_capacity_mah : ℤ
  current_capacity_pct : ℤ
  raw_current_capacity_mah : ℤ
  voltage_mv : ℤ
  voltage_v : ℚ
  amperage_ma : ℤ
  power_watts : ℚ
  adapter_watts : ℤ
  temperature_raw : ℤ
  temperature_celsius : ℚ
  cycle_count : ℤ
  wear_level_pct : ℚ
  real_health_pct : ℚ
  real_percentage : ℚ
  time_remaining_min : ℤ
  avg_time_to_empty_min : ℤ
  instant_time_to_empty_min : ℤ
  external_connected : Bool
  is_charging : Bool
  fully_charged : Bool
  charging_status : String

/-- Construction of `battery_data`, lines 285-322: raw fields pass through,
derived ratios are rounded here (2 decimals for voltage, power, wear, health
and percentage; 1 decimal for temperature). -/
def mkBatteryData (r : BatteryRecord) : BatteryData :=
  { serial := r.serial
    device_name := r.device_name
    manufacturer := r.manufacturer
    design_capacity_mah := r.design_capacity
    current_max_capacity_mah := r.apple_raw_max_capacity
    nominal_charge_capacity_mah := r.nominal_charge_capacity
    current_capacity_pct := r.current_capacity_pct
    raw_current_capacity_mah := r.apple_raw_current_capacity
    voltage_mv := r.voltage_mv
    voltage_v := pyRound 2 (voltage_v r)
    amperage_ma := r.amperage_ma
    power_watts := pyRound 2 (power_watts r)
    adapter_watts := r.adapter_watts
    temperature_raw := r.temperature_raw
    temperature_celsius := pyRound 1 (temperature_celsius r)
    cycle_count := r.cycle_count
    wear_level_pct := pyRound 2 (wear_level r)
    real_health_pct := pyRound 2 (real_health_pct r)
    real_percentage := pyRound 2 (real_percentage r)
    time_remaining_min := r.time_remaining
    avg_time_to_empty_min := r.avg_time_to_empty
    instant_time_to_empty_min := r.instant_time_to_empty
    external_connected := r.external_connected
    is_charging := r.is_charging
    fully_charged := r.fully_charged
    charging_status := charging_status r }

/-- The output of `plistlib.loads`: either an array of documents or a single
document (line 205 handles both shapes). -/
inductive PlistData where
  | arr (docs : List RawDoc)
  | single (doc : RawDoc)

/-- Python truthiness of the plist value, for the `if not plist_data` guard
at line 200: an array is truthy when non-empty, a dict when non-empty. -/
def plistTruthy : PlistData → Bool
  | PlistData.arr docs => !docs.isEmpty
  | PlistData.single doc => !doc.isEmpty

/-- Line 205: `plist_data[0] if isinstance(plist_data, list) else plist_data`
(the array case is only reached through the truthy guard, so the default for
an empty array is never used). -/
def firstDoc : PlistData → RawDoc
  | PlistData.arr docs => docs.headD []
  | PlistData.single doc => doc

/-- The pipeline of `get_battery_data_forensic`, lines 197-331: `none` models
the no-device failure path (lines 200-202, `return None`), `some` the fully
populated derived record. -/
def get_battery_data_forensic (plist_data : Option PlistData) : Option BatteryData :=
  match plist_data with
  | none => none
  | some pd =>
    if plistTruthy pd then some (mkBatteryData (parseBattery (firstDoc pd)))
    else none

/-! Concrete records used to instantiate the universally quantified theorems. -/

/-- A record with every field at its parse-time default. -/
def baseRec : BatteryRecord :=
  { serial := "Unknown"
    device_name := "Unknown"
    manufacturer := "Apple Inc."
    apple_raw_max_capacity := 0
    design_capacity := 0
    nominal_charge_capacity := 0
    current_capacity_pct := 0
    apple_raw_current_capacity := 0
    voltage_mv := 0
    amperage_ma := 0
    temperature_raw := 0
    cycle_count := 0
    time_remaining := 0
    avg_time_to_empty := 0
    instant_time_to_empty := 0
    external_connected := false
    is_charging := false
    fully_charged := false
    adapter_watts := 0 }

/-- The golden-scenario record of the spec: a healthy battery discharging at
1.5 A on external power. -/
def rec6 : BatteryRecord :=
  { baseRec with
    design_capacity := 3000
    apple_raw_max_capacity := 2700
    apple_raw_current_capacity := 2000
    voltage_mv := 12000
    amperage_ma := -1500
    external_connected := true }

/-- A record whose firmware reports a negative voltage. -/
def recNegV : BatteryRecord :=
  { baseRec with
    voltage_mv := -12000
    amperage_ma := 1500 }

/-- A record that reports both the charging and the fully-charged flag. -/
def recFull : BatteryRecord :=
  { baseRec with fully_charged := true, is_charging := true }

/-- A document whose adapter-details list opens with a non-dict entry before
a well-formed adapter dict. -/
def adapterDoc : RawDoc :=
  [("AppleRawAdapterDetails", RawValue.list
      [RawValue.int 5, RawValue.dict [("Watts", RawValue.int 96)]])]

/-- A record whose raw max capacity exceeds its design capacity and whose raw
current capacity exceeds its raw max capacity. -/
def recOver : BatteryRecord :=
  { baseRec with
    design_capacity := 3000
    apple_raw_max_capacity := 3300
    apple_raw_current_capacity := 3400 }

/-! Facts about the round-half-to-even rounding. -/

lemma rhe_of_fract_lt (q : ℚ) (h : q - ⌊q⌋ < 1 / 2) : roundHalfEven q = ⌊q⌋ := by
  unfold roundHalfEven
  rw [if_pos h]

lemma rhe_of_lt_fract (q : ℚ) (h : 1 / 2 < q - ⌊q⌋) : roundHalfEven q = ⌊q⌋ + 1 := by
  unfold roundHalfEven
  rw [if_neg (by linarith), if_pos h]

lemma rhe_of_fract_eq_even (q : ℚ) (h : q - ⌊q⌋ = 1 / 2) (hpar : ⌊q⌋ % 2 = 0) :
    roundHalfEven q = ⌊q⌋ := by
  unfold roundHalfEven
  rw [if_neg (by linarith), if_neg (by linarith), if_pos hpar]

lemma rhe_of_fract_eq_odd (q : ℚ) (h : q - ⌊q⌋ = 1 / 2) (hpar : ¬⌊q⌋ % 2 = 0) :
    roundHalfEven q = ⌊q⌋ + 1 := by
  unfold roundHalfEven
  rw [if_neg (by linarith), if_neg (by linarith), if_neg hpar]

lemma roundHalfEven_intCast (k : ℤ) : roundHalfEven (k : ℚ) = k := by
  have h : ((k : ℚ)) - ⌊(k : ℚ)⌋ = 0 := by
    rw [Int.floor_intCast]
    ring
  rw [rhe_of_fract_lt _ (by rw [h]; norm_num), Int.floor_intCast]

lemma pyRound_zero (n : ℕ) : pyRound n 0 = 0 := by
  unfold pyRound
  rw [zero_mul]
  have h : roundHalfEven 0 = 0 := by
    have := roundHalfEven_intCast 0
    simpa using this
  rw [h]
  norm_num

/-- Rounding is idempotent: a value that is already a multiple of the target
precision is left unchanged. -/
lemma pyRound_idem (n : ℕ) (x : ℚ) : pyRound n (pyRound n x) = pyRound n x := by
  unfold pyRound
  have h10 : ((10 : ℚ)) ^ n ≠ 0 := by positivity
  rw [div_mul_cancel₀ _ h10, roundHalfEven_intCast]

/-- Round-half-to-even is compatible with reflection around an even integer:
rounding a value and rounding its complement to an even integer add back up
to that integer, including at ties, where the two tie candidates have
opposite parities. -/
lemma roundHalfEven_add_compl (n : ℤ) (hn : n % 2 = 0) (y : ℚ) :
    roundHalfEven y + roundHalfEven ((n : ℚ) - y) = n := by
  have hfl : ((⌊y⌋ : ℤ) : ℚ) ≤ y := Int.floor_le y
  have hfu : y < ⌊y⌋ + 1 := Int.lt_floor_add_one y
  rcases lt_trichotomy (y - ⌊y⌋) (1 / 2) with hlt | heq | hgt
  · by_cases hz : y - ⌊y⌋ = 0
    · have hy : y = ((⌊y⌋ : ℤ) : ℚ) := by linarith
      have h2 : (n : ℚ) - y = ((n - ⌊y⌋ : ℤ) : ℚ) := by
        push_cast
        linarith
      rw [h2, roundHalfEven_intCast, hy, roundHalfEven_intCast, Int.floor_intCast]
      ring
    · have hpos : 0 < y - ⌊y⌋ := lt_of_le_of_ne (by linarith) (Ne.symm hz)
      have hfloor : ⌊(n : ℚ) - y⌋ = n - ⌊y⌋ - 1 := by
        rw [Int.floor_eq_iff]
        constructor
        · push_cast
          linarith
        · push_cast
          linarith
      have hfr : 1 / 2 < ((n : ℚ) - y) - ⌊(n : ℚ) - y⌋ := by
        rw [hfloor]
        push_cast
        linarith
      rw [rhe_of_fract_lt y hlt, rhe_of_lt_fract _ hfr, hfloor]
      ring
  · have hpos : 0 < y - ⌊y⌋ := by linarith
    have hfloor : ⌊(n : ℚ) - y⌋ = n - ⌊y⌋ - 1 := by
      rw [Int.floor_eq_iff]
      constructor
      · push_cast
        linarith
      · push_cast
        linarith
    have hfr : ((n : ℚ) - y) - ⌊(n : ℚ) - y⌋ = 1 / 2 := by
      rw [hfloor]
      push_cast
      linarith
    by_cases hpar : ⌊y⌋ % 2 = 0
    · have h2 : roundHalfEven ((n : ℚ) - y) = n - ⌊y⌋ - 1 + 1 := by
        rw [rhe_of_fract_eq_odd _ hfr (by rw [hfloor]; omega), hfloor]
      rw [rhe_of_fract_eq_even y heq hpar, h2]
      ring
    · have h2 : roundHalfEven ((n : ℚ) - y) = n - ⌊y⌋ - 1 := by
        rw [rhe_of_fract_eq_even _ hfr (by rw [hfloor]; omega), hfloor]
      rw [rhe_of_fract_eq_odd y heq hpar, h2]
      ring
  · have hpos : 0 < y - ⌊y⌋ := by linarith
    have hfloor : ⌊(n : ℚ) - y⌋ = n - ⌊y⌋ - 1 := by
      rw [Int.floor_eq_iff]
      constructor
      · push_cast
        linarith
      · push_cast
        linarith
    have hfr : ((n : ℚ) - y) - ⌊(n : ℚ) - y⌋ < 1 / 2 := by
      rw [hfloor]
      push_cast
      linarith
    rw [rhe_of_lt_fract y hgt, rhe_of_fract_lt _ hfr, hfloor]
    ring

/-- Two-decimal rounding of a value and of its complement to 100 always add
back up to exactly 100. -/
lemma pyRound2_add_compl (x : ℚ) : pyRound 2 x + pyRound 2 (100 - x) = 100 := by
  unfold pyRound
  have h1 : (100 - x) * 10 ^ 2 = ((10000 : ℤ) : ℚ) - x * 10 ^ 2 := by
    push_cast
    ring
  rw [h1, div_add_div_same, ← Int.cast_add, roundHalfEven_add_compl 10000 (by norm_num)]
  norm_num

/-- Scanning a prefix free of dict entries leaves the first-dict search
unchanged: the loop skips non-dict entries. -/
lemma firstDict_no_dict {pre : List RawValue} (h : ∀ x ∈ pre, ∀ dd, x ≠ RawValue.dict dd)
    (rest : List RawValue) : firstDict (pre ++ rest) = firstDict rest := by
  induction pre with
  | nil => rfl
  | cons a pre ih =>
    have ha := h a (List.mem_cons_self a pre)
    have hpre : ∀ x ∈ pre, ∀ dd, x ≠ RawValue.dict dd :=
      fun x hx => h x (List.mem_cons_of_mem a hx)
    cases a with
    | int n => simpa [firstDict] using ih hpre
    | bool b => simpa [firstDict] using ih hpre
    | str s => simpa [firstDict] using ih hpre
    | list l => simpa [firstDict] using ih hpre
    | dict dd => exact absurd rfl (ha dd)

/-! Claim theorems. -/

/-- C1: the charging-status classification is total and deterministic over the
three status booleans, in the fixed priority order fully_charged, then
is_charging, then external_connected, with otherwise-Discharging; in
particular fully_charged together with is_charging yields Fully Charged, and
all three flags false yields Discharging, covering all 8 combinations. -/
theorem charging_status_classification (r : BatteryRecord) :
    (r.fully_charged = true → charging_status r = "Fully Charged") ∧
    (r.fully_charged = false → r.is_charging = true → charging_status r = "Charging") ∧
    (r.fully_charged = false → r.is_charging = false → r.external_connected = true →
      charging_status r = "Not Charging") ∧
    (r.fully_charged = false → r.is_charging = false → r.external_connected = false →
      charging_status r = "Discharging") := by
  refine ⟨fun h1 => ?_, fun h1 h2 => ?_, fun h1 h2 h3 => ?_, fun h1 h2 h3 => ?_⟩
  · simp [charging_status, h1]
  · simp [charging_status, h1, h2]
  · simp [charging_status, h1, h2, h3]
  · simp [charging_status, h1, h2, h3]

/-- Witness for C1: a record with both fully_charged and is_charging set
classifies as Fully Charged, and the all-false record as Discharging. -/
theorem charging_status_classification_witness :
    charging_status recFull = "Fully Charged" ∧ charging_status baseRec = "Discharging" :=
  ⟨(charging_status_classification recFull).1 rfl,
   (charging_status_classification baseRec).2.2.2 rfl rfl rfl⟩

/-- C2: a non-positive design capacity yields zero wear and zero health (both
before and after rounding), and a non-positive raw max capacity yields zero
real percentage; in the rational model the guarded divisions are never taken
with a non-positive denominator, so no division fault or non-finite value can
arise. -/
theorem degenerate_denominator_safe (r : BatteryRecord) :
    (r.design_capacity ≤ 0 →
      wear_level r = 0 ∧ real_health_pct r = 0 ∧
      (mkBatteryData r).wear_level_pct = 0 ∧ (mkBatteryData r).real_health_pct = 0) ∧
    (r.apple_raw_max_capacity ≤ 0 →
      real_percentage r = 0 ∧ (mkBatteryData r).real_percentage = 0) := by
  constructor
  · intro h
    have h1 : wear_level r = 0 := by rw [wear_level, if_neg (by omega)]
    have h2 : real_health_pct r = 0 := by rw [real_health_pct, if_neg (by omega)]
    refine ⟨h1, h2, ?_, ?_⟩
    · show pyRound 2 (wear_level r) = 0
      rw [h1, pyRound_zero]
    · show pyRound 2 (real_health_pct r) = 0
      rw [h2, pyRound_zero]
  · intro h
    have h1 : real_percentage r = 0 := by rw [real_percentage, if_neg (by omega)]
    refine ⟨h1, ?_⟩
    show pyRound 2 (real_percentage r) = 0
    rw [h1, pyRound_zero]

/-- Witness for C2 at the all-defaults record, whose capacities are 0. -/
theorem degenerate_denominator_safe_witness :
    (wear_level baseRec = 0 ∧ real_health_pct baseRec = 0 ∧
      (mkBatteryData baseRec).wear_level_pct = 0 ∧ (mkBatteryData baseRec).real_health_pct = 0) ∧
    (real_percentage baseRec = 0 ∧ (mkBatteryData baseRec).real_percentage = 0) :=
  ⟨(degenerate_denominator_safe baseRec).1 (by decide),
   (degenerate_denominator_safe baseRec).2 (by decide)⟩

/-- C3, counterexample: with a negative firmware voltage of -12000 mV and an
amperage of 1500 mA, the code computes a power of -18 W, while the magnitude
of the full product is 18 W — the claim that power equals the absolute value
of the product and is never negative fails. -/
theorem power_watts_sign_cex :
    power_watts recNegV = -18 ∧
    |((recNegV.voltage_mv : ℚ) * (recNegV.amperage_ma : ℚ))| / 1000000 = 18 ∧
    power_watts recNegV < 0 := by
  norm_num [power_watts, recNegV, baseRec, abs_of_pos]

/-- C3, amended: the derived power is voltage_mv times the absolute amperage,
divided by one million (0 when either factor is 0); whenever voltage_mv is
non-negative this equals the magnitude of the full product and is itself
non-negative. -/
theorem power_watts_magnitude (r : BatteryRecord) :
    power_watts r = (if r.voltage_mv ≠ 0 ∧ r.amperage_ma ≠ 0 then
      ((r.voltage_mv : ℚ) * |(r.amperage_ma : ℚ)|) / 1000000 else 0) ∧
    (0 ≤ r.voltage_mv →
      power_watts r = |((r.voltage_mv : ℚ) * (r.amperage_ma : ℚ))| / 1000000 ∧
      0 ≤ power_watts r) := by
  refine ⟨rfl, fun hv => ?_⟩
  rw [power_watts]
  by_cases h : r.voltage_mv ≠ 0 ∧ r.amperage_ma ≠ 0
  · rw [if_pos h]
    have hv0 : (0 : ℚ) ≤ (r.voltage_mv : ℚ) := by exact_mod_cast hv
    constructor
    · rw [abs_mul, abs_of_nonneg hv0]
    · positivity
  · rw [if_neg h]
    rcases not_and_or.mp h with h1 | h1
    · rw [not_not] at h1
      constructor
      · rw [h1]
        norm_num
      · norm_num
    · rw [not_not] at h1
      constructor
      · rw [h1]
        norm_num
      · norm_num

/-- Witness for the amended C3 at the golden-scenario record, whose voltage is
non-negative and whose amperage is negative. -/
theorem power_watts_magnitude_witness :
    power_watts rec6 = |((rec6.voltage_mv : ℚ) * (rec6.amperage_ma : ℚ))| / 1000000 ∧
    0 ≤ power_watts rec6 :=
  (power_watts_magnitude rec6).2 (by decide)

/-- C4, counterexample: on the document with no keys at all, the manufacturer
field defaults to "Apple Inc.", not to "Unknown" as the claim states for all
three string identity fields. -/
theorem parse_manufacturer_cex :
    (parseBattery []).manufacturer = "Apple Inc." ∧
    (parseBattery []).manufacturer ≠ "Unknown" :=
  ⟨rfl, by decide⟩

/-- C4, amended: parsing is total, and every field whose key is absent takes
its coded default — 0 for numeric fields, false for boolean fields, "Unknown"
for serial and device name, and "Apple Inc." for the manufacturer. -/
theorem parse_missing_key_defaults (d : RawDoc) :
    (dget d "Serial" = none → (parseBattery d).serial = "Unknown") ∧
    (dget d "DeviceName" = none → (parseBattery d).device_name = "Unknown") ∧
    (dget d "Manufacturer" = none → (parseBattery d).manufacturer = "Apple Inc.") ∧
    (dget d "AppleRawMaxCapacity" = none → (parseBattery d).apple_raw_max_capacity = 0) ∧
    (dget d "DesignCapacity" = none → (parseBattery d).design_capacity = 0) ∧
    (dget d "NominalChargeCapacity" = none → (parseBattery d).nominal_charge_capacity = 0) ∧
    (dget d "CurrentCapacity" = none → (parseBattery d).current_capacity_pct = 0) ∧
    (dget d "AppleRawCurrentCapacity" = none → (parseBattery d).apple_raw_current_capacity = 0) ∧
    (dget d "Voltage" = none → (parseBattery d).voltage_mv = 0) ∧
    (dget d "Amperage" = none → (parseBattery d).amperage_ma = 0) ∧
    (dget d "Temperature" = none → (parseBattery d).temperature_raw = 0) ∧
    (dget d "CycleCount" = none → (parseBattery d).cycle_count = 0) ∧
    (dget d "TimeRemaining" = none → (parseBattery d).time_remaining = 0) ∧
    (dget d "AvgTimeToEmpty" = none → (parseBattery d).avg_time_to_empty = 0) ∧
    (dget d "InstantTimeToEmpty" = none → (parseBattery d).instant_time_to_empty = 0) ∧
    (dget d "ExternalConnected" = none → (parseBattery d).external_connected = false) ∧
    (dget d "IsCharging" = none → (parseBattery d).is_charging = false) ∧
    (dget d "FullyCharged" = none → (parseBattery d).fully_charged = false) ∧
    (dget d "AppleRawAdapterDetails" = none → (parseBattery d).adapter_watts = 0) := by
  and_intros <;> intro h <;>
    simp [parseBattery, getStrD, getIntD, getBoolD, adapter_watts_scan, h]

/-- Witness for the amended C4 at the document with no keys. -/
theorem parse_missing_key_defaults_witness :
    (parseBattery []).serial = "Unknown" ∧ (parseBattery []).manufacturer = "Apple Inc." ∧
    (parseBattery []).voltage_mv = 0 ∧ (parseBattery []).fully_charged = false ∧
    (parseBattery []).adapter_watts = 0 := by
  obtain ⟨h1, h2, h3, h4, h5, h6, h7, h8, h9, h10, h11, h12, h13, h14, h15, h16, h17, h18, h19⟩ :=
    parse_missing_key_defaults []
  exact ⟨h1 rfl, h3 rfl, h9 rfl, h18 rfl, h19 rfl⟩

/-- C5: a missing document and an empty document sequence each end the
invocation with the no-device failure (no record, so derivation never runs),
while a non-empty sequence is parsed from its first element. -/
theorem parse_first_or_no_device :
    get_battery_data_forensic none = none ∧
    get_battery_data_forensic (some (PlistData.arr [])) = none ∧
    get_battery_data_forensic (some (PlistData.single [])) = none ∧
    ∀ d ds, get_battery_data_forensic (some (PlistData.arr (d :: ds))) =
      some (mkBatteryData (parseBattery d)) := by
  refine ⟨rfl, rfl, rfl, fun d ds => ?_⟩
  simp [get_battery_data_forensic, plistTruthy, firstDoc]

/-- C6: the golden scenario — design 3000 mAh, raw max 2700 mAh, raw current
2000 mAh, 12000 mV, -1500 mA, external power connected but not charging —
derives health 90.00, wear 10.00, real percentage 74.07, power 18.00 W,
voltage 12.00 V, and status Not Charging. -/
theorem golden_scenario :
    (mkBatteryData rec6).real_health_pct = 90 ∧
    (mkBatteryData rec6).wear_level_pct = 10 ∧
    (mkBatteryData rec6).real_percentage = 7407 / 100 ∧
    (mkBatteryData rec6).power_watts = 18 ∧
    (mkBatteryData rec6).voltage_v = 12 ∧
    (mkBatteryData rec6).charging_status = "Not Charging" := by
  norm_num [mkBatteryData, rec6, baseRec, pyRound, roundHalfEven, real_health_pct,
    wear_level, real_percentage, power_watts, voltage_v, charging_status, Rat.floor_def]

/-- C7: with a positive design capacity, real health equals the capacity ratio
times 100, equals 100 minus wear, and health plus wear is exactly 100 — for
the unrounded values computed by the two separate expressions, and also for
the two-decimal rounded record fields, where the half-to-even tie rule makes
the two roundings cancel. -/
theorem health_wear_complementary (r : BatteryRecord) (h : 0 < r.design_capacity) :
    real_health_pct r = ((r.apple_raw_max_capacity : ℚ) / (r.design_capacity : ℚ)) * 100 ∧
    real_health_pct r = 100 - wear_level r ∧
    real_health_pct r + wear_level r = 100 ∧
    (mkBatteryData r).real_health_pct + (mkBatteryData r).wear_level_pct = 100 := by
  have h1 : real_health_pct r =
      ((r.apple_raw_max_capacity : ℚ) / (r.design_capacity : ℚ)) * 100 := by
    rw [real_health_pct, if_pos h]
  have h2 : wear_level r =
      100 - ((r.apple_raw_max_capacity : ℚ) / (r.design_capacity : ℚ)) * 100 := by
    rw [wear_level, if_pos h]
  have h3 : wear_level r = 100 - real_health_pct r := by
    rw [h1, h2]
  refine ⟨h1, by rw [h1, h2]; ring, by rw [h1, h2]; ring, ?_⟩
  show pyRound 2 (real_health_pct r) + pyRound 2 (wear_level r) = 100
  rw [h3, pyRound2_add_compl]

/-- Witness for C7 at the golden-scenario record. -/
theorem health_wear_complementary_witness :
    real_health_pct rec6 + wear_level rec6 = 100 ∧
    (mkBatteryData rec6).real_health_pct + (mkBatteryData rec6).wear_level_pct = 100 :=
  ⟨(health_wear_complementary rec6 (by decide)).2.2.1,
   (health_wear_complementary rec6 (by decide)).2.2.2⟩

/-- C8: every ratio-based derived field of the record equals the one-time
rounding of its raw value at construction — 2 decimals for health, wear, real
percentage, voltage and power, 1 decimal for temperature — and re-rounding a
stored field is the identity, so a read never changes the value again. -/
theorem rounding_once_at_construction (r : BatteryRecord) :
    (mkBatteryData r).real_health_pct = pyRound 2 (real_health_pct r) ∧
    (mkBatteryData r).wear_level_pct = pyRound 2 (wear_level r) ∧
    (mkBatteryData r).real_percentage = pyRound 2 (real_percentage r) ∧
    (mkBatteryData r).temperature_celsius = pyRound 1 (temperature_celsius r) ∧
    (mkBatteryData r).voltage_v = pyRound 2 (voltage_v r) ∧
    (mkBatteryData r).power_watts = pyRound 2 (power_watts r) ∧
    pyRound 2 ((mkBatteryData r).real_health_pct) = (mkBatteryData r).real_health_pct ∧
    pyRound 2 ((mkBatteryData r).wear_level_pct) = (mkBatteryData r).wear_level_pct ∧
    pyRound 2 ((mkBatteryData r).real_percentage) = (mkBatteryData r).real_percentage ∧
    pyRound 1 ((mkBatteryData r).temperature_celsius) = (mkBatteryData r).temperature_celsius ∧
    pyRound 2 ((mkBatteryData r).voltage_v) = (mkBatteryData r).voltage_v ∧
    pyRound 2 ((mkBatteryData r).power_watts) = (mkBatteryData r).power_watts :=
  ⟨rfl, rfl, rfl, rfl, rfl, rfl,
   pyRound_idem 2 _, pyRound_idem 2 _, pyRound_idem 2 _,
   pyRound_idem 1 _, pyRound_idem 2 _, pyRound_idem 2 _⟩

/-- C9: adapter wattage extraction returns 0 without fault when the
adapter-details key is absent, when its value is not a list, when the list is
empty, and when the list holds no dict; when the list holds a dict after
arbitrary non-dict entries, the result is the Watts entry of that first dict,
itself defaulting to 0 when the Watts key is missing; and the record field is
exactly this scan. -/
theorem adapter_watts_extraction (b : RawDoc) :
    (dget b "AppleRawAdapterDetails" = none → adapter_watts_scan b = 0) ∧
    (∀ v, dget b "AppleRawAdapterDetails" = some v → (∀ l, v ≠ RawValue.list l) →
      adapter_watts_scan b = 0) ∧
    (dget b "AppleRawAdapterDetails" = some (RawValue.list []) → adapter_watts_scan b = 0) ∧
    (∀ l, dget b "AppleRawAdapterDetails" = some (RawValue.list l) →
      (∀ x ∈ l, ∀ dd, x ≠ RawValue.dict dd) → adapter_watts_scan b = 0) ∧
    (∀ pre dd post, dget b "AppleRawAdapterDetails" =
        some (RawValue.list (pre ++ RawValue.dict dd :: post)) →
      (∀ x ∈ pre, ∀ d2, x ≠ RawValue.dict d2) →
      adapter_watts_scan b = getIntD dd "Watts" 0) ∧
    (∀ dd : RawDoc, dget dd "Watts" = none → getIntD dd "Watts" 0 = 0) ∧
    (parseBattery b).adapter_watts = adapter_watts_scan b := by
  refine ⟨fun h => ?_, fun v h hv => ?_, fun h => ?_, fun l h hl => ?_,
    fun pre dd post h hpre => ?_, fun dd h => ?_, rfl⟩
  · simp [adapter_watts_scan, h]
  · cases v with
    | list l => exact absurd rfl (hv l)
    | int n => simp [adapter_watts_scan, h]
    | bool x => simp [adapter_watts_scan, h]
    | str s => simp [adapter_watts_scan, h]
    | dict d2 => simp [adapter_watts_scan, h]
  · simp [adapter_watts_scan, h, firstDict]
  · have hnone : firstDict l = none := by
      have hl2 := firstDict_no_dict hl ([] : List RawValue)
      simpa using hl2
    simp [adapter_watts_scan, h, hnone]
  · have hfd : firstDict (pre ++ RawValue.dict dd :: post) = some dd := by
      rw [firstDict_no_dict hpre]
      rfl
    simp [adapter_watts_scan, h, hfd]
  · simp [getIntD, h]

/-- Witness for C9: a list opening with a non-dict entry, then an adapter dict
reporting 96 W. -/
theorem adapter_watts_extraction_witness : adapter_watts_scan adapterDoc = 96 := by
  obtain ⟨-, -, -, -, h5, -, -⟩ := adapter_watts_extraction adapterDoc
  have h := h5 [RawValue.int 5] [("Watts", RawValue.int 96)] [] rfl ?_
  · simpa [getIntD, dget] using h
  · intro x hx d2
    simp only [List.mem_singleton] at hx
    subst hx
    intro hcontra
    exact RawValue.noConfusion hcontra

/-- C10: the health, wear and real-percentage computations are not clamped to
the 0-100 range: a raw max capacity above the design capacity gives a health
value above 100 and a negative wear value, and a raw current capacity above
the raw max capacity gives a real percentage above 100. -/
theorem no_clamping (r : BatteryRecord) :
    (0 < r.design_capacity → r.design_capacity < r.apple_raw_max_capacity →
      100 < real_health_pct r ∧ wear_level r < 0) ∧
    (0 < r.apple_raw_max_capacity → r.apple_raw_max_capacity < r.apple_raw_current_capacity →
      100 < real_percentage r) := by
  constructor
  · intro hd hlt
    have hdq : (0 : ℚ) < (r.design_capacity : ℚ) := by exact_mod_cast hd
    have hltq : ((r.design_capacity : ℚ)) < (r.apple_raw_max_capacity : ℚ) := by exact_mod_cast hlt
    have hratio : 1 < (r.apple_raw_max_capacity : ℚ) / (r.design_capacity : ℚ) :=
      (one_lt_div hdq).mpr hltq
    constructor
    · rw [real_health_pct, if_pos hd]
      linarith
    · rw [wear_level, if_pos hd]
      linarith
  · intro hm hlt
    have hmq : (0 : ℚ) < (r.apple_raw_max_capacity : ℚ) := by exact_mod_cast hm
    have hltq : ((r.apple_raw_max_capacity : ℚ)) < (r.apple_raw_current_capacity : ℚ) := by
      exact_mod_cast hlt
    have hratio : 1 < (r.apple_raw_current_capacity : ℚ) / (r.apple_raw_max_capacity : ℚ) :=
      (one_lt_div hmq).mpr hltq
    rw [real_percentage, if_pos hm]
    linarith

/-- Witness for C10 at a record 10 percent over its design capacity and over
its raw max capacity. -/
theorem no_clamping_witness :
    (100 < real_health_pct recOver ∧ wear_level recOver < 0) ∧
    100 < real_percentage recOver :=
  ⟨(no_clamping recOver).1 (by decide) (by decide),
   (no_clamping recOver).2 (by decide) (by decide)⟩

end BatteryMonitor
